import Mathlib

/-!
# Verification of the GIF scene-segmentation and assembly pipeline

Shallow embedding of the core logic of the repository:

* `calculateFrameDifference` — the luminance-based frame differencer of
  `src/hooks/useVideoProcessor.ts`;
* the scene-segmentation loop of `useVideoProcessor` (same file), including
  the per-scene GIF encoding boundary `createGifFromFrames`;
* the assembly-timeline state of `src/components/GifCombiner.tsx` (its trim
  handlers, reorder effect, active-range slice and duration metrics);
  `src/components/CombineModal.tsx` contains character-for-character the same
  handlers and metric computation over its `allFrames` state, so one model
  covers both components.

Modelling conventions: JavaScript numbers are modelled as exact rationals
(`ℚ`); a JavaScript computation whose value is `NaN` (out-of-bounds reads of
a `Uint8ClampedArray` coerced through arithmetic, or `0/0`) is modelled as
`none` of an `Option ℚ`.  The flat RGBA byte buffer walked with stride 4 is
modelled as a list of `Pixel` records (one per 4-byte group), so JavaScript
`data.length / 4` is `data.length` here.  DOM, canvas and Blob plumbing is
not modelled; the encoder (`gif.js`) is modelled by an oracle
`encodeOk : ℕ → Bool` telling whether rendering of a given scene ordinal
finishes before its 20-second timeout.
-/

/-- One RGBA pixel of a comparison frame, i.e. one stride-4 group of the
`Uint8ClampedArray` handed to `calculateFrameDifference`.  Components are
bytes (0–255); the bound is carried as a hypothesis where needed. -/
structure Pixel where
  r : ℕ
  g : ℕ
  b : ℕ
  a : ℕ
deriving DecidableEq

/-- The grayscale conversion inside the loop of `calculateFrameDifference`:
`0.299 * data[i] + 0.587 * data[i+1] + 0.114 * data[i+2]` (alpha ignored). -/
def luminance (p : Pixel) : ℚ :=
  (299 / 1000) * p.r + (587 / 1000) * p.g + (114 / 1000) * p.b

/-- The accumulation loop of `calculateFrameDifference`: walk the pixels of
`data1`; at each index read the corresponding pixel of `data2`.  When `data2`
is shorter, the JavaScript reads `undefined`, its arithmetic yields `NaN` and
the whole sum is `NaN` — modelled as `none`. -/
def diffSum : List Pixel → List Pixel → Option ℚ
  | [], _ => some 0
  | _ :: _, [] => none
  | p :: ps, q :: qs =>
    match diffSum ps qs with
    | none => none
    | some s => some (|luminance p - luminance q| + s)

/-- The function `calculateFrameDifference` of `src/hooks/useVideoProcessor.ts` (lines
20–30): sum of per-pixel absolute luminance deltas over `data1`'s indices,
normalised by `255 * (data1.length / 4)` and expressed as a percentage.
When `data1` is empty the JavaScript computes `0 / 0 = NaN` (`none`). -/
def calculateFrameDifference (data1 data2 : List Pixel) : Option ℚ :=
  match diffSum data1 data2 with
  | none => none
  | some diff =>
    if data1.length = 0 then none
    else some (diff / (255 * data1.length) * 100)

/-- Written from the spec's words (§4.1), for comparison with
`calculateFrameDifference`: "convert each pixel to luminance, sum per-pixel
absolute luminance deltas, normalize by `255 × pixelCount`, express as a
percentage". -/
def specDifference (data1 data2 : List Pixel) : ℚ :=
  (List.zipWith (fun p q => |luminance p - luminance q|) data1 data2).sum
    / (255 * data1.length) * 100

/-! ## Scene segmenter (`useVideoProcessor`) -/

/-- The constant `DIFFERENCE_THRESHOLD = 15` of `useVideoProcessor.ts`. -/
def DIFFERENCE_THRESHOLD : ℚ := 15

/-- The constant `MIN_SCENE_FRAMES = 10` of `useVideoProcessor.ts`. -/
def MIN_SCENE_FRAMES : ℕ := 10

/-- One sampled instant of the video: the high-resolution `ImageData`
(opaque, identified by a number) and the low-resolution comparison pixels. -/
structure Sample where
  highRes : ℕ
  comparison : List Pixel
deriving DecidableEq

/-- An element of `currentSceneFrames`: `{ data: highResFrameData, delay:
1000 / frameRate }`. -/
structure SceneFrame where
  data : ℕ
  delay : ℚ
deriving DecidableEq

/-- A produced scene.  The source's `GifScene` also carries `dataUrl`,
`isSelected` and `name` (and stringifies the ordinal into `id`); those are
presentation-only and not modelled. -/
structure GifScene where
  ordinal : ℕ
  frames : List SceneFrame
deriving DecidableEq

/-- The mutable locals of the sampling loop of `useVideoProcessor`:
`lastFrameData`, `currentSceneFrames`, `scenes`, `sceneCount`. -/
structure SegState where
  lastFrameData : Option (List Pixel)
  currentSceneFrames : List SceneFrame
  scenes : List GifScene
  sceneCount : ℕ
deriving DecidableEq

/-- Initial loop state: `lastFrameData = null`, empty accumulation, no
scenes, `sceneCount = 0`. -/
def initSegState : SegState := ⟨none, [], [], 0⟩

/-- The function `createGifFromFrames` (lines 111–132): returns `null` on an empty frame
list, otherwise renders asynchronously; a render that does not finish within
20 s rejects with `GIF rendering timed out for Scene <id>`.  Whether the
render finishes is the encoder oracle `encodeOk`. -/
def createGifFromFrames (encodeOk : ℕ → Bool) (frames : List SceneFrame)
    (sceneId : ℕ) : Except String (Option GifScene) :=
  if frames.length = 0 then Except.ok none
  else if encodeOk sceneId then Except.ok (some ⟨sceneId, frames⟩)
  else Except.error ("GIF rendering timed out for Scene " ++ toString sceneId)

/-- The `isSceneCut` computation (lines 165–175): the first sample always
cuts; later samples cut when `calculateFrameDifference current last` exceeds
`DIFFERENCE_THRESHOLD` (a `NaN` comparison is `false` in JavaScript). -/
def isSceneCut (current : List Pixel) (last : Option (List Pixel)) : Bool :=
  match last with
  | none => true
  | some l =>
    match calculateFrameDifference current l with
    | none => false
    | some d => decide (DIFFERENCE_THRESHOLD < d)

/-- One iteration of the sampling loop (lines 165–189), after the seek and
the two captures: maybe close and encode the accumulated run, then push the
current high-res frame and remember the comparison frame.  An encode
rejection propagates as an exception. -/
def processSample (encodeOk : ℕ → Bool) (frameRate : ℚ) (st : SegState)
    (s : Sample) : Except String SegState :=
  if isSceneCut s.comparison st.lastFrameData
      && decide (MIN_SCENE_FRAMES ≤ st.currentSceneFrames.length) then
    match createGifFromFrames encodeOk st.currentSceneFrames (st.sceneCount + 1) with
    | Except.error e => Except.error e
    | Except.ok newScene =>
      let scenes :=
        match newScene with
        | some sc => st.scenes ++ [sc]
        | none => st.scenes
      Except.ok
        { lastFrameData := some s.comparison
          currentSceneFrames := [⟨s.highRes, 1000 / frameRate⟩]
          scenes := scenes
          sceneCount := st.sceneCount + 1 }
  else
    Except.ok
      { st with
        lastFrameData := some s.comparison
        currentSceneFrames := st.currentSceneFrames ++ [⟨s.highRes, 1000 / frameRate⟩] }

/-- The sampling loop itself.  The whole loop body sits inside the outer
`try`, so the first exception stops the iteration; scenes already pushed
into React state before the failure stay visible, hence the pair of the
state reached so far and the optional error. -/
def segLoop (encodeOk : ℕ → Bool) (frameRate : ℚ) :
    SegState → List Sample → SegState × Option String
  | st, [] => (st, none)
  | st, s :: rest =>
    match processSample encodeOk frameRate st s with
    | Except.ok st2 => segLoop encodeOk frameRate st2 rest
    | Except.error e => (st, some e)

/-- The message set when the pass yields no scene (lines 201–203). -/
def noScenesMessage : String :=
  "No scenes could be detected. The video might be too short or a single continuous scene. Try adjusting Optimization Settings."

/-- The whole segmentation pass over a prepared sample list: the loop, then
the final flush of the remaining accumulation (lines 192–199), then the
`scenes.length === 0 && totalFramesToProcess > 0` check (lines 201–203).
An exception from the loop or from the flush jumps to the `catch`, so the
no-scenes check is skipped in that case.  Result: the emitted scenes and the
error string, if any, that ends up in the hook's `error` state. -/
def runSegmentation (encodeOk : ℕ → Bool) (frameRate : ℚ)
    (samples : List Sample) : List GifScene × Option String :=
  match segLoop encodeOk frameRate initSegState samples with
  | (st, some e) => (st.scenes, some e)
  | (st, none) =>
    let afterFlush : Except String (List GifScene) :=
      if MIN_SCENE_FRAMES ≤ st.currentSceneFrames.length then
        match createGifFromFrames encodeOk st.currentSceneFrames (st.sceneCount + 1) with
        | Except.ok (some sc) => Except.ok (st.scenes ++ [sc])
        | Except.ok none => Except.ok st.scenes
        | Except.error e => Except.error e
      else Except.ok st.scenes
    match afterFlush with
    | Except.error e => (st.scenes, some e)
    | Except.ok scenes =>
      if scenes.length = 0 ∧ 0 < samples.length then (scenes, some noScenesMessage)
      else (scenes, none)

/-- The sample count `totalFramesToProcess = Math.floor(video.duration * frameRate)`
(line 139). -/
def totalFramesToProcess (duration frameRate : ℚ) : ℕ :=
  (⌊duration * frameRate⌋).toNat

/-- The pass as driven by the video: sample indices `0 ≤ i <
totalFramesToProcess`, each seek-and-capture producing `capture i`. -/
def runFromVideo (encodeOk : ℕ → Bool) (frameRate duration : ℚ)
    (capture : ℕ → Sample) : List GifScene × Option String :=
  runSegmentation encodeOk frameRate
    ((List.range (totalFramesToProcess duration frameRate)).map capture)

/-! Concrete fixtures used by the counterexamples and witnesses. -/

/-- A solid-gray comparison pixel of value `v`: luminance exactly `v`. -/
def grayPixel (v : ℕ) : Pixel := ⟨v, v, v, 255⟩

/-- A sample whose high-res frame is `hi` and whose comparison frame is one
solid-gray pixel of value `v`. -/
def graySample (hi v : ℕ) : Sample := ⟨hi, [grayPixel v]⟩

/-- An encoder whose renders always finish in time. -/
def encodeAlwaysOk : ℕ → Bool := fun _ => true

/-- An encoder whose render of scene 1 times out; all others finish. -/
def failFirstEncode : ℕ → Bool := fun n => decide (n ≠ 1)

/-- Fifteen samples: a 6-frame gray-0 blip, then a hard luminance jump to gray
100 for 9 frames.  The jump at index 6 is a detected boundary while only 6
frames (< `MIN_SCENE_FRAMES`) have accumulated. -/
def blipSamples : List Sample :=
  ([0, 1, 2, 3, 4, 5].map (fun i => graySample i 0))
    ++ ([6, 7, 8, 9, 10, 11, 12, 13, 14].map (fun i => graySample i 100))

/-- Twenty samples forming two 10-frame scenes split by a luminance jump at
index 10. -/
def twoSceneSamples : List Sample :=
  ([0, 1, 2, 3, 4, 5, 6, 7, 8, 9].map (fun i => graySample i 0))
    ++ ([10, 11, 12, 13, 14, 15, 16, 17, 18, 19].map (fun i => graySample i 100))

/-- Scene frame `i` tagged with the 10 fps delay `1000 / 10` ms, for
stating concrete segmentation results. -/
def frameAt10 (i : ℕ) : SceneFrame := ⟨i, 1000 / 10⟩

/-! ## Assembly timeline (`GifCombiner` / `CombineModal`) -/

/-- One frame of a decoded source GIF: its `ImageData` (opaque id) and its
`delay` in milliseconds (`displayDurationMs`).  The source's
`ParsedGifFrame` also carries the raw patch data; not modelled. -/
structure ParsedGifFrame where
  imageData : ℕ
  delay : ℚ
deriving DecidableEq

/-- A source clip as held in `orderedGifs`: only its frame list matters to
the timeline logic (the source record also carries id, name, url, width and
height, used for display and for encoder dimensions). -/
structure SourceGif where
  frames : List ParsedGifFrame
deriving DecidableEq

/-- The timeline state of `GifCombiner` (and of `CombineModal`, where
`flatFrames` is named `allFrames`): the flattened frame index and the two
trim bounds. -/
structure TimelineState where
  flatFrames : List ParsedGifFrame
  trimStart : ℕ
  trimEnd : ℕ
deriving DecidableEq

/-- The `useEffect` on `orderedGifs` (GifCombiner lines 68–73): recompute
the flattened index with `flatMap`, reset `trimStart` to 0 and `trimEnd` to
`all.length - 1` (or 0 when empty). -/
def recomputeTimeline (orderedGifs : List SourceGif) : TimelineState :=
  let all := orderedGifs.flatMap (fun g => g.frames)
  { flatFrames := all
    trimStart := 0
    trimEnd := if all.length > 0 then all.length - 1 else 0 }

/-- The reorder operation `handleDragSort`: remove the dragged source and re-insert it at the
drag-over position (the two `splice` calls).  Out-of-range indices do not
occur: both refs are set from rendered list indices. -/
def handleDragSort (dragItem dragOverItem : ℕ) (orderedGifs : List SourceGif) :
    List SourceGif :=
  match orderedGifs[dragItem]? with
  | none => orderedGifs
  | some g => (orderedGifs.eraseIdx dragItem).insertIdx dragOverItem g

/-- The handler `handleStartTrimChange` (GifCombiner lines 184–187, CombineModal lines
181–184): `setTrimStart(Math.min(newStart, trimEnd))`. -/
def handleStartTrimChange (newStart : ℕ) (st : TimelineState) : TimelineState :=
  { st with trimStart := min newStart st.trimEnd }

/-- The handler `handleEndTrimChange` (GifCombiner lines 189–192, CombineModal lines
186–189): `setTrimEnd(Math.max(newEnd, trimStart))`. -/
def handleEndTrimChange (newEnd : ℕ) (st : TimelineState) : TimelineState :=
  { st with trimEnd := max newEnd st.trimStart }

/-- The largest value either trim slider can deliver: the inputs carry
`max={len > 0 ? len - 1 : 0}` (GifCombiner lines 253–254). -/
def sliderMax (st : TimelineState) : ℕ :=
  if st.flatFrames.length > 0 then st.flatFrames.length - 1 else 0

/-- The slice `flatFrames.slice(trimStart, trimEnd + 1)` — the frames handed to
the encoder by `generateCombinedGif`. -/
def framesToCombine (st : TimelineState) : List ParsedGifFrame :=
  (st.flatFrames.drop st.trimStart).take (st.trimEnd + 1 - st.trimStart)

/-- The callback `generateCombinedGif` (GifCombiner lines 75-112) up to its encoder call:
the guards (`flatFrames.length === 0`, `trimStart > trimEnd`, empty slice)
short-circuit without encoding; otherwise the slice is handed to the
encoder.  The worker-url and source-list guards concern external plumbing
and are not modelled. -/
def generateCombinedGif (st : TimelineState) : Option (List ParsedGifFrame) :=
  if st.flatFrames.length = 0 then none
  else if st.trimEnd < st.trimStart then none
  else if (framesToCombine st).length = 0 then none
  else some (framesToCombine st)

/-- The `useMemo` metrics (GifCombiner lines 32–46, CombineModal lines
39–54): `(totalDuration, startTime, endTime, selectedDuration)` in seconds.
All four are sums of `delay` over slices of the flattened index, divided by
1000; the empty index short-circuits to zeros. -/
def timelineMetrics (st : TimelineState) : ℚ × ℚ × ℚ × ℚ :=
  if st.flatFrames.length = 0 then (0, 0, 0, 0)
  else
    let totalMs := st.flatFrames.foldl (fun acc f => acc + f.delay) 0
    let startMs := (st.flatFrames.take st.trimStart).foldl (fun acc f => acc + f.delay) 0
    let selectedMs :=
      ((st.flatFrames.drop st.trimStart).take (st.trimEnd + 1 - st.trimStart)).foldl
        (fun acc f => acc + f.delay) 0
    (totalMs / 1000, startMs / 1000, (startMs + selectedMs) / 1000, selectedMs / 1000)

/-- The spec's timeline invariant (§3): `0 ≤ trimStart ≤ trimEnd <
len(flattened)` when the flattened index is non-empty; `[0,0]` when empty. -/
def TrimInv (st : TimelineState) : Prop :=
  (st.flatFrames.length = 0 → st.trimStart = 0 ∧ st.trimEnd = 0)
    ∧ (st.flatFrames.length ≠ 0 →
        st.trimStart ≤ st.trimEnd ∧ st.trimEnd < st.flatFrames.length)

instance (st : TimelineState) : Decidable (TrimInv st) := by
  unfold TrimInv; infer_instance

/-- A concrete six-frame timeline with trim range `[0, 5]`, used by
counterexamples and witnesses. -/
def sixFrameTimeline : TimelineState :=
  ⟨(List.range 6).map (fun i => ⟨i, 100⟩), 0, 5⟩

/-- A six-frame timeline with trim range `[2, 5]`, used by witnesses that
need a positive `trimStart`. -/
def midTrimTimeline : TimelineState :=
  ⟨(List.range 6).map (fun i => ⟨i, 100⟩), 2, 5⟩

/-- A three-frame timeline with non-uniform delays (100 ms, 250 ms, 40 ms)
and trim range `[1, 2]`, used to witness duration summation. -/
def nonUniformTimeline : TimelineState :=
  ⟨[⟨0, 100⟩, ⟨1, 250⟩, ⟨2, 40⟩], 1, 2⟩

/-! ## Helper lemmas about the differencer -/

/-- When `data2` has at least as many pixels as `data1`, the accumulation
loop is the sum of the pointwise absolute luminance deltas. -/
theorem diffSum_eq_zipWith (a : List Pixel) : ∀ b : List Pixel,
    a.length ≤ b.length →
    diffSum a b
      = some ((List.zipWith (fun p q => |luminance p - luminance q|) a b).sum) := by
  induction a with
  | nil => intro b _; simp [diffSum]
  | cons p ps ih =>
    intro b hb
    cases b with
    | nil => simp at hb
    | cons q qs =>
      have h : ps.length ≤ qs.length := by simpa using hb
      simp [diffSum, ih qs h]

/-- When `data2` is shorter than `data1`, the loop reads past the end of
`data2` and the sum is `NaN`. -/
theorem diffSum_none_of_lt (a : List Pixel) : ∀ b : List Pixel,
    b.length < a.length → diffSum a b = none := by
  induction a with
  | nil => intro b hb; simp at hb
  | cons p ps ih =>
    intro b hb
    cases b with
    | nil => simp [diffSum]
    | cons q qs =>
      have h : qs.length < ps.length := by simpa using hb
      simp [diffSum, ih qs h]

/-- The accumulated difference of a frame against itself is zero. -/
theorem diffSum_self (f : List Pixel) : diffSum f f = some 0 := by
  induction f with
  | nil => rfl
  | cons p ps ih => simp [diffSum, ih]

/-- Every element of the pointwise-delta list comes from a pixel pair of the
two inputs. -/
theorem mem_zipWith_diff {a b : List Pixel} {x : ℚ}
    (hx : x ∈ List.zipWith (fun p q => |luminance p - luminance q|) a b) :
    ∃ p q, p ∈ a ∧ q ∈ b ∧ x = |luminance p - luminance q| := by
  induction a generalizing b with
  | nil => simp at hx
  | cons p ps ih =>
    cases b with
    | nil => simp at hx
    | cons q qs =>
      rcases (by simpa using hx : x = |luminance p - luminance q|
          ∨ x ∈ List.zipWith (fun p q => |luminance p - luminance q|) ps qs) with h | h
      · exact ⟨p, q, by simp, by simp, h⟩
      · obtain ⟨p2, q2, hp, hq, he⟩ := ih h
        exact ⟨p2, q2, by simp [hp], by simp [hq], he⟩

/-- Luminance is nonnegative. -/
theorem luminance_nonneg (p : Pixel) : 0 ≤ luminance p := by
  unfold luminance; positivity

/-- Luminance of a byte-valued pixel is at most 255 (the coefficients sum to
exactly 1). -/
theorem luminance_le_255 (p : Pixel) (hr : p.r ≤ 255) (hg : p.g ≤ 255)
    (hb : p.b ≤ 255) : luminance p ≤ 255 := by
  have hr2 : (p.r : ℚ) ≤ 255 := by exact_mod_cast hr
  have hg2 : (p.g : ℚ) ≤ 255 := by exact_mod_cast hg
  have hb2 : (p.b : ℚ) ≤ 255 := by exact_mod_cast hb
  unfold luminance
  linarith

/-! ## C7 — differencer identity -/

/-- C7: for every frame buffer `f` (every comparison frame produced by the
pipeline has at least one pixel), `difference(f, f) = 0`. -/
theorem differencer_self_zero (f : List Pixel) (h : f ≠ []) :
    calculateFrameDifference f f = some 0 := by
  have hlen : f.length ≠ 0 := fun hh => h (List.length_eq_zero.mp hh)
  unfold calculateFrameDifference
  rw [diffSum_self]
  simp [hlen]

/-- Witness for C7 at a concrete one-pixel frame. -/
theorem differencer_self_zero_witness :
    calculateFrameDifference [grayPixel 7] [grayPixel 7] = some 0 :=
  differencer_self_zero [grayPixel 7] (by decide)

/-! ## C6 — differencer formula and range -/

/-- C6: on same-length, byte-valued, nonempty buffers the differencer
returns exactly the spec's formula — the sum of per-pixel absolute
luminance deltas (luminance `0.299R + 0.587G + 0.114B`, alpha ignored),
normalised by `255 × pixelCount`, times 100 — and that value lies in
`[0, 100]`. -/
theorem differencer_formula_and_range (a b : List Pixel)
    (hlen : a.length = b.length) (hne : a ≠ [])
    (ha : ∀ p ∈ a, p.r ≤ 255 ∧ p.g ≤ 255 ∧ p.b ≤ 255)
    (hb : ∀ p ∈ b, p.r ≤ 255 ∧ p.g ≤ 255 ∧ p.b ≤ 255) :
    calculateFrameDifference a b = some (specDifference a b)
      ∧ 0 ≤ specDifference a b ∧ specDifference a b ≤ 100 := by
  have hlen0 : a.length ≠ 0 := fun hh => hne (List.length_eq_zero.mp hh)
  have h1 : calculateFrameDifference a b = some (specDifference a b) := by
    unfold calculateFrameDifference specDifference
    rw [diffSum_eq_zipWith a b (le_of_eq hlen)]
    simp [hlen0]
  have hbound : ∀ x ∈ List.zipWith (fun p q => |luminance p - luminance q|) a b,
      x ≤ (255 : ℚ) := by
    intro x hx
    obtain ⟨p, q, hp, hq, he⟩ := mem_zipWith_diff hx
    obtain ⟨hpr, hpg, hpb⟩ := ha p hp
    obtain ⟨hqr, hqg, hqb⟩ := hb q hq
    have h1p := luminance_nonneg p
    have h2p := luminance_le_255 p hpr hpg hpb
    have h1q := luminance_nonneg q
    have h2q := luminance_le_255 q hqr hqg hqb
    rw [he, abs_le]
    constructor <;> linarith
  have hnonneg : 0 ≤ (List.zipWith (fun p q => |luminance p - luminance q|) a b).sum := by
    apply List.sum_nonneg
    intro x hx
    obtain ⟨p, q, _, _, he⟩ := mem_zipWith_diff hx
    rw [he]; exact abs_nonneg _
  have hzlen : (List.zipWith (fun p q => |luminance p - luminance q|) a b).length
      = a.length := by
    rw [List.length_zipWith, hlen, min_self]
  have hsum := List.sum_le_card_nsmul
    (List.zipWith (fun p q => |luminance p - luminance q|) a b) (255 : ℚ) hbound
  rw [hzlen, nsmul_eq_mul] at hsum
  have hnpos : (0 : ℚ) < (a.length : ℚ) := by
    exact_mod_cast Nat.pos_of_ne_zero hlen0
  refine ⟨h1, ?_, ?_⟩
  · unfold specDifference
    have hdenom : (0 : ℚ) ≤ 255 * a.length := by positivity
    exact mul_nonneg (div_nonneg hnonneg hdenom) (by norm_num)
  · unfold specDifference
    rw [div_mul_eq_mul_div, div_le_iff₀ (by positivity)]
    nlinarith
/-- Witness for C6: one black pixel against one white pixel gives exactly
100, within `[0, 100]`. -/
theorem differencer_formula_and_range_witness :
    calculateFrameDifference [⟨0, 0, 0, 255⟩] [⟨255, 255, 255, 255⟩]
        = some (specDifference [⟨0, 0, 0, 255⟩] [⟨255, 255, 255, 255⟩])
      ∧ 0 ≤ specDifference [⟨0, 0, 0, 255⟩] [⟨255, 255, 255, 255⟩]
      ∧ specDifference [⟨0, 0, 0, 255⟩] [⟨255, 255, 255, 255⟩] ≤ 100 :=
  differencer_formula_and_range _ _ (by decide) (by decide) (by decide) (by decide)

/-! ## C3 — no dimension check -/

/-- C3 counterexample: on buffers of unequal pixel count (1 vs 2) the
differencer raises nothing and returns the numeric result `0`, computed
over the first buffer's single pixel. -/
theorem differencer_no_mismatch_error_counterexample :
    ([⟨0, 0, 0, 255⟩] : List Pixel).length
        ≠ ([⟨0, 0, 0, 255⟩, ⟨10, 20, 30, 255⟩] : List Pixel).length
      ∧ calculateFrameDifference [⟨0, 0, 0, 255⟩] [⟨0, 0, 0, 255⟩, ⟨10, 20, 30, 255⟩]
        = some 0 := by
  constructor
  · decide
  · simp [calculateFrameDifference, diffSum]

/-- C3 amended: the differencer performs no dimension check.  It walks the
first buffer's pixels: when the second buffer is at least as long it returns
the numeric percentage computed over the first buffer's pixel count (extra
pixels of the second buffer are ignored); when the second buffer is shorter,
the out-of-bounds reads make the result `NaN` (`none`) — in neither case is
a `DimensionMismatch` error raised. -/
theorem differencer_no_dimension_check (a b : List Pixel) (hne : a ≠ []) :
    (a.length ≤ b.length →
        calculateFrameDifference a b = some (specDifference a b))
      ∧ (b.length < a.length → calculateFrameDifference a b = none) := by
  have hlen0 : a.length ≠ 0 := fun hh => hne (List.length_eq_zero.mp hh)
  constructor
  · intro hle
    unfold calculateFrameDifference specDifference
    rw [diffSum_eq_zipWith a b hle]
    simp [hlen0]
  · intro hlt
    unfold calculateFrameDifference
    rw [diffSum_none_of_lt a b hlt]

/-- Witness for C3 amended, exercising both branches on concrete buffers. -/
theorem differencer_no_dimension_check_witness :
    calculateFrameDifference [grayPixel 3] [grayPixel 3, grayPixel 9]
        = some (specDifference [grayPixel 3] [grayPixel 3, grayPixel 9])
      ∧ calculateFrameDifference [grayPixel 3, grayPixel 9] [grayPixel 3] = none :=
  ⟨(differencer_no_dimension_check _ _ (by decide)).1 (by decide),
   (differencer_no_dimension_check _ _ (by decide)).2 (by decide)⟩

/-! ## Helper lemmas about the segmenter loop -/

/-- Luminance of a solid-gray pixel is its gray value (the three
coefficients sum to exactly 1). -/
theorem luminance_gray (v : ℕ) : luminance (grayPixel v) = v := by
  unfold luminance grayPixel
  ring

/-- The differencer on two one-pixel solid-gray frames. -/
theorem cfd_gray (u v : ℕ) :
    calculateFrameDifference [grayPixel u] [grayPixel v]
      = some (|(u : ℚ) - v| / 255 * 100) := by
  simp [calculateFrameDifference, diffSum, luminance_gray]

/-- Equal gray frames never trigger a cut. -/
theorem isSceneCut_gray_same (v : ℕ) :
    isSceneCut [grayPixel v] (some [grayPixel v]) = false := by
  simp [isSceneCut, cfd_gray, DIFFERENCE_THRESHOLD]

/-- The gray jump 0 → 100 scores `2000/51 ≈ 39.2 > 15` and triggers a cut. -/
theorem isSceneCut_gray_jump :
    isSceneCut [grayPixel 100] (some [grayPixel 0]) = true := by
  have habs : |((100 : ℕ) : ℚ) - ((0 : ℕ) : ℚ)| = 100 := by
    rw [abs_of_nonneg] <;> norm_num
  simp [isSceneCut, cfd_gray, DIFFERENCE_THRESHOLD, habs]
  norm_num

/-- A sample that does not cut just extends the accumulation. -/
theorem processSample_notCut (ek : ℕ → Bool) (fr : ℚ) (st : SegState) (s : Sample)
    (h : isSceneCut s.comparison st.lastFrameData = false) :
    processSample ek fr st s = Except.ok
      { st with
        lastFrameData := some s.comparison
        currentSceneFrames := st.currentSceneFrames ++ [⟨s.highRes, 1000 / fr⟩] } := by
  simp [processSample, h]

/-- A sample hitting a short accumulation (fewer than `MIN_SCENE_FRAMES`
frames) also just extends it, cut or no cut. -/
theorem processSample_shortRun (ek : ℕ → Bool) (fr : ℚ) (st : SegState) (s : Sample)
    (h : st.currentSceneFrames.length < MIN_SCENE_FRAMES) :
    processSample ek fr st s = Except.ok
      { st with
        lastFrameData := some s.comparison
        currentSceneFrames := st.currentSceneFrames ++ [⟨s.highRes, 1000 / fr⟩] } := by
  have h2 : ¬ MIN_SCENE_FRAMES ≤ st.currentSceneFrames.length := Nat.not_le.mpr h
  simp [processSample, h2]

/-- A cut over a long-enough accumulation whose encode succeeds emits the
scene and restarts the accumulation with the current frame. -/
theorem processSample_emit (ek : ℕ → Bool) (fr : ℚ) (st : SegState) (s : Sample)
    (h1 : isSceneCut s.comparison st.lastFrameData = true)
    (h2 : MIN_SCENE_FRAMES ≤ st.currentSceneFrames.length)
    (h3 : st.currentSceneFrames.length ≠ 0)
    (h4 : ek (st.sceneCount + 1) = true) :
    processSample ek fr st s = Except.ok
      ⟨some s.comparison, [⟨s.highRes, 1000 / fr⟩],
        st.scenes ++ [⟨st.sceneCount + 1, st.currentSceneFrames⟩], st.sceneCount + 1⟩ := by
  simp [processSample, h1, h2, createGifFromFrames, h3, h4]

/-- A cut over a long-enough accumulation whose encode times out raises the
timeout exception. -/
theorem processSample_encodeFail (ek : ℕ → Bool) (fr : ℚ) (st : SegState) (s : Sample)
    (h1 : isSceneCut s.comparison st.lastFrameData = true)
    (h2 : MIN_SCENE_FRAMES ≤ st.currentSceneFrames.length)
    (h3 : st.currentSceneFrames.length ≠ 0)
    (h4 : ek (st.sceneCount + 1) = false) :
    processSample ek fr st s
      = Except.error ("GIF rendering timed out for Scene " ++ toString (st.sceneCount + 1)) := by
  simp [processSample, h1, h2, createGifFromFrames, h3, h4]

/-- Loop step on a successfully processed sample. -/
theorem segLoop_cons_ok (ek : ℕ → Bool) (fr : ℚ) (st st2 : SegState) (s : Sample)
    (rest : List Sample) (h : processSample ek fr st s = Except.ok st2) :
    segLoop ek fr st (s :: rest) = segLoop ek fr st2 rest := by
  simp [segLoop, h]

/-- Loop step on a failing sample: iteration stops at the pre-sample
state. -/
theorem segLoop_cons_error (ek : ℕ → Bool) (fr : ℚ) (st : SegState) (s : Sample)
    (rest : List Sample) (e : String)
    (h : processSample ek fr st s = Except.error e) :
    segLoop ek fr st (s :: rest) = (st, some e) := by
  simp [segLoop, h]

/-- A loop over a concatenation continues from the state reached by an
error-free prefix. -/
theorem segLoop_append_ok (ek : ℕ → Bool) (fr : ℚ) (xs : List Sample) :
    ∀ (st st2 : SegState) (ys : List Sample),
    segLoop ek fr st xs = (st2, none) →
    segLoop ek fr st (xs ++ ys) = segLoop ek fr st2 ys := by
  induction xs with
  | nil =>
    intro st st2 ys h
    simp only [segLoop] at h
    injection h with h1 h2
    subst h1
    simp
  | cons x xs ih =>
    intro st st2 ys h
    cases hp : processSample ek fr st x with
    | ok st3 =>
      rw [List.cons_append, segLoop_cons_ok ek fr st st3 x (xs ++ ys) hp]
      rw [segLoop_cons_ok ek fr st st3 x xs hp] at h
      exact ih st3 st2 ys h
    | error e =>
      rw [segLoop_cons_error ek fr st x xs e hp] at h
      simp at h

/-- Processing a run of solid-gray samples of the same value as the
remembered comparison frame only appends to the accumulation. -/
theorem segLoop_constGray (ek : ℕ → Bool) (fr : ℚ) (v : ℕ) (ids : List ℕ) :
    ∀ st : SegState, st.lastFrameData = some [grayPixel v] →
    segLoop ek fr st (ids.map (fun i => graySample i v)) =
      ({ st with
          currentSceneFrames :=
            st.currentSceneFrames ++ ids.map (fun i => ⟨i, 1000 / fr⟩) }, none) := by
  induction ids with
  | nil =>
    intro st h
    simp [segLoop]
  | cons i ids ih =>
    intro st h
    have hcut : isSceneCut (graySample i v).comparison st.lastFrameData = false := by
      rw [h]; exact isSceneCut_gray_same v
    rw [List.map_cons,
      segLoop_cons_ok ek fr st _ (graySample i v) _ (processSample_notCut ek fr st _ hcut)]
    have hlast : (({ st with
        lastFrameData := some (graySample i v).comparison
        currentSceneFrames :=
          st.currentSceneFrames ++ [⟨(graySample i v).highRes, 1000 / fr⟩] } : SegState)).lastFrameData
        = some [grayPixel v] := rfl
    rw [ih _ hlast]
    simp [graySample, h, List.append_assoc]

/-- An initial run of solid-gray-0 samples accumulates frames and emits
nothing, whatever the encoder. -/
theorem grayRun_first (ek : ℕ → Bool) (ids : List ℕ) :
    segLoop ek 10 initSegState ((0 :: ids).map (fun i => graySample i 0))
      = (⟨some [grayPixel 0], (0 :: ids).map frameAt10, [], 0⟩, none) := by
  rw [List.map_cons]
  have h0 := processSample_shortRun ek 10 initSegState (graySample 0 0) (by decide)
  rw [segLoop_cons_ok _ _ _ _ _ _ h0]
  show segLoop ek 10 ⟨some [grayPixel 0], [⟨0, 1000 / 10⟩], [], 0⟩
      (ids.map (fun i => graySample i 0))
    = (⟨some [grayPixel 0], (0 :: ids).map frameAt10, [], 0⟩, none)
  rw [segLoop_constGray ek 10 0 ids _ rfl]
  rfl

/-- Full loop over `blipSamples`: the boundary at index 6 hits a 6-frame
accumulation, which is kept — by the end one 15-frame accumulation holds
every frame, blip included. -/
theorem blip_loop :
    segLoop encodeAlwaysOk 10 initSegState blipSamples
      = (⟨some [grayPixel 100],
          [0, 1, 2, 3, 4, 5, 6, 7, 8, 9, 10, 11, 12, 13, 14].map frameAt10, [], 0⟩,
        none) := by
  unfold blipSamples
  rw [segLoop_append_ok _ _ _ _ _ _ (grayRun_first encodeAlwaysOk [1, 2, 3, 4, 5])]
  have h6 : processSample encodeAlwaysOk 10
      ⟨some [grayPixel 0], [0, 1, 2, 3, 4, 5].map frameAt10, [], 0⟩ (graySample 6 100)
      = Except.ok ⟨some [grayPixel 100], [0, 1, 2, 3, 4, 5, 6].map frameAt10, [], 0⟩ := by
    rw [processSample_shortRun _ _ _ _ (by decide)]
    rfl
  show segLoop encodeAlwaysOk 10
      ⟨some [grayPixel 0], [0, 1, 2, 3, 4, 5].map frameAt10, [], 0⟩
      (graySample 6 100 :: [7, 8, 9, 10, 11, 12, 13, 14].map (fun i => graySample i 100))
    = (⟨some [grayPixel 100],
        [0, 1, 2, 3, 4, 5, 6, 7, 8, 9, 10, 11, 12, 13, 14].map frameAt10, [], 0⟩, none)
  rw [segLoop_cons_ok _ _ _ _ _ _ h6]
  rw [segLoop_constGray encodeAlwaysOk 10 100 [7, 8, 9, 10, 11, 12, 13, 14] _ rfl]
  rfl

/-- The whole `blipSamples` pass emits exactly one scene, of ordinal 1,
holding all 15 frames. -/
theorem blip_run :
    runSegmentation encodeAlwaysOk 10 blipSamples
      = ([⟨1, [0, 1, 2, 3, 4, 5, 6, 7, 8, 9, 10, 11, 12, 13, 14].map frameAt10⟩], none) := by
  unfold runSegmentation
  rw [blip_loop]
  simp [createGifFromFrames, encodeAlwaysOk, MIN_SCENE_FRAMES]

/-- The cut at sample 10 of `twoSceneSamples` with a succeeding encoder:
scene 1 (frames 0–9) is emitted and the accumulation restarts at frame
10. -/
theorem twoScene_cut_ok :
    processSample encodeAlwaysOk 10
      ⟨some [grayPixel 0], [0, 1, 2, 3, 4, 5, 6, 7, 8, 9].map frameAt10, [], 0⟩
      (graySample 10 100)
      = Except.ok ⟨some [grayPixel 100], [⟨10, 1000 / 10⟩],
          [⟨1, [0, 1, 2, 3, 4, 5, 6, 7, 8, 9].map frameAt10⟩], 1⟩ := by
  rw [processSample_emit _ _ _ _ (by exact isSceneCut_gray_jump) (by decide) (by decide) rfl]
  rfl

/-- With an all-succeeding encoder the `twoSceneSamples` pass emits the two
scenes and no error. -/
theorem twoScene_run_ok :
    runSegmentation encodeAlwaysOk 10 twoSceneSamples
      = ([⟨1, [0, 1, 2, 3, 4, 5, 6, 7, 8, 9].map frameAt10⟩,
          ⟨2, [10, 11, 12, 13, 14, 15, 16, 17, 18, 19].map frameAt10⟩], none) := by
  have hloop : segLoop encodeAlwaysOk 10 initSegState twoSceneSamples
      = (⟨some [grayPixel 100],
          [10, 11, 12, 13, 14, 15, 16, 17, 18, 19].map frameAt10,
          [⟨1, [0, 1, 2, 3, 4, 5, 6, 7, 8, 9].map frameAt10⟩], 1⟩, none) := by
    unfold twoSceneSamples
    rw [segLoop_append_ok _ _ _ _ _ _
      (grayRun_first encodeAlwaysOk [1, 2, 3, 4, 5, 6, 7, 8, 9])]
    show segLoop encodeAlwaysOk 10
        ⟨some [grayPixel 0], [0, 1, 2, 3, 4, 5, 6, 7, 8, 9].map frameAt10, [], 0⟩
        (graySample 10 100
          :: [11, 12, 13, 14, 15, 16, 17, 18, 19].map (fun i => graySample i 100))
      = (⟨some [grayPixel 100],
          [10, 11, 12, 13, 14, 15, 16, 17, 18, 19].map frameAt10,
          [⟨1, [0, 1, 2, 3, 4, 5, 6, 7, 8, 9].map frameAt10⟩], 1⟩, none)
    rw [segLoop_cons_ok _ _ _ _ _ _ twoScene_cut_ok]
    rw [segLoop_constGray encodeAlwaysOk 10 100 [11, 12, 13, 14, 15, 16, 17, 18, 19] _ rfl]
    rfl
  unfold runSegmentation
  rw [hloop]
  simp [createGifFromFrames, encodeAlwaysOk, MIN_SCENE_FRAMES]

/-- With an encoder that times out on scene 1, the same input stops at
sample 10 with the timeout error and no emitted scene at all. -/
theorem twoScene_cut_fail :
    processSample failFirstEncode 10
      ⟨some [grayPixel 0], [0, 1, 2, 3, 4, 5, 6, 7, 8, 9].map frameAt10, [], 0⟩
      (graySample 10 100)
      = Except.error "GIF rendering timed out for Scene 1" := by
  rw [processSample_encodeFail _ _ _ _ (by exact isSceneCut_gray_jump) (by decide)
    (by decide) (by decide)]
  rfl

/-- With an encoder that times out on scene 1, the loop over
`twoSceneSamples` stops at sample 10: the state still holds the gray-0
comparison frame and the ten accumulated frames, and samples 10–19 are
never processed. -/
theorem twoScene_loop_fail :
    segLoop failFirstEncode 10 initSegState twoSceneSamples
      = (⟨some [grayPixel 0], [0, 1, 2, 3, 4, 5, 6, 7, 8, 9].map frameAt10, [], 0⟩,
          some "GIF rendering timed out for Scene 1") := by
  unfold twoSceneSamples
  rw [segLoop_append_ok _ _ _ _ _ _
    (grayRun_first failFirstEncode [1, 2, 3, 4, 5, 6, 7, 8, 9])]
  show segLoop failFirstEncode 10
      ⟨some [grayPixel 0], [0, 1, 2, 3, 4, 5, 6, 7, 8, 9].map frameAt10, [], 0⟩
      (graySample 10 100
        :: [11, 12, 13, 14, 15, 16, 17, 18, 19].map (fun i => graySample i 100))
    = (⟨some [grayPixel 0], [0, 1, 2, 3, 4, 5, 6, 7, 8, 9].map frameAt10, [], 0⟩,
        some "GIF rendering timed out for Scene 1")
  rw [segLoop_cons_error _ _ _ _ _ _ twoScene_cut_fail]

/-- With an encoder that times out on scene 1, the whole pass surfaces the
timeout and emits no scene. -/
theorem twoScene_run_fail :
    runSegmentation failFirstEncode 10 twoSceneSamples
      = ([], some "GIF rendering timed out for Scene 1") := by
  unfold runSegmentation
  rw [twoScene_loop_fail]

/-! ## C1 — short accumulation at a boundary -/

/-- C1 counterexample: in `blipSamples` the boundary at sample 6 meets a
6-frame accumulation (6 < `MIN_SCENE_FRAMES`), yet the run is not
discarded: the pass emits exactly one scene, which contains the blip frame
0 — so the short run's frames do appear in an emitted scene and no new
empty accumulation was started. -/
theorem short_run_discard_counterexample :
    (segLoop encodeAlwaysOk 10 initSegState (blipSamples.take 6)).1.currentSceneFrames.length = 6
      ∧ 6 < MIN_SCENE_FRAMES
      ∧ isSceneCut (graySample 6 100).comparison
          (segLoop encodeAlwaysOk 10 initSegState (blipSamples.take 6)).1.lastFrameData = true
      ∧ runSegmentation encodeAlwaysOk 10 blipSamples
          = ([⟨1, [0, 1, 2, 3, 4, 5, 6, 7, 8, 9, 10, 11, 12, 13, 14].map frameAt10⟩], none)
      ∧ frameAt10 0
          ∈ (runSegmentation encodeAlwaysOk 10 blipSamples).1.flatMap (fun sc => sc.frames) := by
  have hpre : segLoop encodeAlwaysOk 10 initSegState (blipSamples.take 6)
      = (⟨some [grayPixel 0], [0, 1, 2, 3, 4, 5].map frameAt10, [], 0⟩, none) := by
    show segLoop encodeAlwaysOk 10 initSegState
        ([0, 1, 2, 3, 4, 5].map (fun i => graySample i 0))
      = (⟨some [grayPixel 0], [0, 1, 2, 3, 4, 5].map frameAt10, [], 0⟩, none)
    exact grayRun_first encodeAlwaysOk [1, 2, 3, 4, 5]
  refine ⟨by rw [hpre]; rfl, by decide, by rw [hpre]; exact isSceneCut_gray_jump, blip_run, ?_⟩
  rw [blip_run]
  simp only [List.flatMap_cons, List.flatMap_nil, List.append_nil]
  exact List.mem_map_of_mem frameAt10 (by decide)

/-- C1 amended: when a boundary is detected and the accumulating run has
fewer than `minSceneFrames` frames, nothing is emitted, but the run is NOT
discarded and no new empty accumulation is started: the current frame is
appended to the same accumulation (scenes and scene count unchanged), so
the short run's frames can surface later inside an emitted scene. -/
theorem short_run_boundary_keeps_accumulation (ek : ℕ → Bool) (fr : ℚ)
    (st : SegState) (s : Sample)
    (hcut : isSceneCut s.comparison st.lastFrameData = true)
    (hshort : st.currentSceneFrames.length < MIN_SCENE_FRAMES) :
    processSample ek fr st s = Except.ok
      { st with
        lastFrameData := some s.comparison
        currentSceneFrames := st.currentSceneFrames ++ [⟨s.highRes, 1000 / fr⟩] } :=
  processSample_shortRun ek fr st s hshort

/-- Witness for C1 amended at the concrete blip state. -/
theorem short_run_boundary_keeps_accumulation_witness :
    processSample encodeAlwaysOk 10
      ⟨some [grayPixel 0], [0, 1, 2, 3, 4, 5].map frameAt10, [], 0⟩ (graySample 6 100)
      = Except.ok ⟨some [grayPixel 100], [0, 1, 2, 3, 4, 5, 6].map frameAt10, [], 0⟩ := by
  rw [short_run_boundary_keeps_accumulation encodeAlwaysOk 10 _ _
    (by exact isSceneCut_gray_jump) (by decide)]
  rfl

/-! ## C4 — an encode failure aborts the run -/

/-- C4 counterexample: on `twoSceneSamples`, when the encoder times out on
scene 1 the pass returns no scene at all (the loop stopped with frames
10–19 unprocessed) and surfaces the timeout, while the identical input
under an all-succeeding encoder yields two scenes — so the second scene was
lost to the first scene's encode failure. -/
theorem encode_failure_continues_counterexample :
    runSegmentation failFirstEncode 10 twoSceneSamples
        = ([], some "GIF rendering timed out for Scene 1")
      ∧ segLoop failFirstEncode 10 initSegState twoSceneSamples
        = (⟨some [grayPixel 0], [0, 1, 2, 3, 4, 5, 6, 7, 8, 9].map frameAt10, [], 0⟩,
            some "GIF rendering timed out for Scene 1")
      ∧ (runSegmentation encodeAlwaysOk 10 twoSceneSamples).1.length = 2 :=
  ⟨twoScene_run_fail, twoScene_loop_fail, by rw [twoScene_run_ok]; rfl⟩

/-- C4 amended: an encode failure while closing a scene propagates as an
exception that aborts the whole segmentation run: no sample after the
failing one is processed, the loop stops in its pre-sample state, and the
run ends with the encode error and only the scenes emitted before the
failure. -/
theorem encode_failure_aborts_run (ek : ℕ → Bool) (fr : ℚ) (pre : List Sample)
    (s : Sample) (rest : List Sample) (st : SegState) (e : String)
    (h1 : segLoop ek fr initSegState pre = (st, none))
    (h2 : processSample ek fr st s = Except.error e) :
    segLoop ek fr initSegState (pre ++ s :: rest) = (st, some e)
      ∧ runSegmentation ek fr (pre ++ s :: rest) = (st.scenes, some e) := by
  have hl : segLoop ek fr initSegState (pre ++ s :: rest) = (st, some e) := by
    rw [segLoop_append_ok ek fr pre initSegState st (s :: rest) h1]
    rw [segLoop_cons_error _ _ _ _ _ _ h2]
  refine ⟨hl, ?_⟩
  unfold runSegmentation
  rw [hl]

/-- Witness for C4 amended on the concrete two-scene input with a
scene-1-timeout encoder. -/
theorem encode_failure_aborts_run_witness :
    segLoop failFirstEncode 10 initSegState
        (([0, 1, 2, 3, 4, 5, 6, 7, 8, 9].map (fun i => graySample i 0))
          ++ graySample 10 100
            :: ([11, 12, 13, 14, 15, 16, 17, 18, 19].map (fun i => graySample i 100)))
      = (⟨some [grayPixel 0], [0, 1, 2, 3, 4, 5, 6, 7, 8, 9].map frameAt10, [], 0⟩,
          some "GIF rendering timed out for Scene 1")
      ∧ runSegmentation failFirstEncode 10
        (([0, 1, 2, 3, 4, 5, 6, 7, 8, 9].map (fun i => graySample i 0))
          ++ graySample 10 100
            :: ([11, 12, 13, 14, 15, 16, 17, 18, 19].map (fun i => graySample i 100)))
      = ([], some "GIF rendering timed out for Scene 1") :=
  encode_failure_aborts_run failFirstEncode 10 _ _ _
    ⟨some [grayPixel 0], [0, 1, 2, 3, 4, 5, 6, 7, 8, 9].map frameAt10, [], 0⟩
    "GIF rendering timed out for Scene 1"
    (grayRun_first failFirstEncode [1, 2, 3, 4, 5, 6, 7, 8, 9]) twoScene_cut_fail

/-! ## C5 — zero samples -/

/-- C5 counterexample: a 0.05 s video at 10 samples/s has
`floor(duration × sampleRate) = 0`; the run completes with no scenes and
`error` left `null` — the `NoScenesDetected` message is NOT reported,
because the source guards it with `totalFramesToProcess > 0`. -/
theorem zero_samples_counterexample :
    totalFramesToProcess (1 / 20) 10 = 0
      ∧ runFromVideo encodeAlwaysOk 10 (1 / 20) (fun i => graySample i 0) = ([], none)
      ∧ (runFromVideo encodeAlwaysOk 10 (1 / 20) (fun i => graySample i 0)).2
          ≠ some noScenesMessage := by
  have htot : totalFramesToProcess (1 / 20) 10 = 0 := by
    unfold totalFramesToProcess
    have h2 : ((1 : ℚ) / 20) * 10 = 1 / 2 := by norm_num
    rw [h2]
    have h3 : ⌊(1 / 2 : ℚ)⌋ = 0 := by
      rw [Int.floor_eq_zero_iff, Set.mem_Ico]
      constructor <;> norm_num
    rw [h3]
    rfl
  have hrun : runFromVideo encodeAlwaysOk 10 (1 / 20) (fun i => graySample i 0)
      = ([], none) := by
    unfold runFromVideo
    rw [htot]
    rfl
  exact ⟨htot, hrun, by rw [hrun]; simp⟩

/-- C5 amended: when `floor(duration × sampleRate)` is zero the sampling
loop is never entered and the run completes silently — no scenes and no
error report at all (`NoScenesDetected` is only set when
`totalFramesToProcess > 0`). -/
theorem zero_samples_report_nothing (ek : ℕ → Bool) (fr dur : ℚ)
    (capture : ℕ → Sample) (h : totalFramesToProcess dur fr = 0) :
    runFromVideo ek fr dur capture = ([], none) := by
  unfold runFromVideo
  rw [h]
  rfl

/-- Witness for C5 amended at duration 0. -/
theorem zero_samples_report_nothing_witness :
    runFromVideo encodeAlwaysOk 10 0 (fun i => graySample i 0) = ([], none) :=
  zero_samples_report_nothing encodeAlwaysOk 10 0 (fun i => graySample i 0)
    (by simp [totalFramesToProcess])

/-! ## C2 — trim handlers clamp the new value, not the other bound -/

/-- C2 counterexample: on a timeline with `trimEnd = 5`,
`setTrimStart(10)` leaves `trimEnd` at 5 and clamps the new start down to
5 — `trimEnd` is not pulled up to 10 and the effective start is 5, not
10. -/
theorem trim_start_pulls_end_counterexample :
    (handleStartTrimChange 10 sixFrameTimeline).trimStart = 5
      ∧ (handleStartTrimChange 10 sixFrameTimeline).trimEnd = 5
      ∧ (handleStartTrimChange 10 sixFrameTimeline).trimEnd ≠ 10
      ∧ (handleStartTrimChange 10 sixFrameTimeline).trimStart ≠ 10 := by
  refine ⟨?_, rfl, by decide, ?_⟩
  · show min 10 sixFrameTimeline.trimEnd = 5
    decide
  · show min 10 sixFrameTimeline.trimEnd ≠ 10
    decide

/-- C2 amended: `setTrimStart(i)` with `i` above `trimEnd` clamps the
*new* value — `trimStart` becomes the old `trimEnd` and `trimEnd` is
unchanged (so the effective start is the old `trimEnd`, not `i`); and
symmetrically `setTrimEnd(j)` with `j` below `trimStart` sets `trimEnd` to
the old `trimStart`.  The bounds still never cross. -/
theorem trim_handlers_clamp_new_value (st : TimelineState) (i j : ℕ)
    (hi : st.trimEnd < i) (hj : j < st.trimStart) :
    handleStartTrimChange i st = { st with trimStart := st.trimEnd }
      ∧ handleEndTrimChange j st = { st with trimEnd := st.trimStart } := by
  constructor
  · unfold handleStartTrimChange
    rw [min_eq_right (le_of_lt hi)]
  · unfold handleEndTrimChange
    rw [max_eq_right (le_of_lt hj)]

/-- Witness for C2 amended at a concrete timeline with trim range
`[2, 5]`. -/
theorem trim_handlers_clamp_new_value_witness :
    handleStartTrimChange 9 midTrimTimeline
        = { midTrimTimeline with trimStart := midTrimTimeline.trimEnd }
      ∧ handleEndTrimChange 1 midTrimTimeline
        = { midTrimTimeline with trimEnd := midTrimTimeline.trimStart } :=
  trim_handlers_clamp_new_value midTrimTimeline 9 1 (by decide) (by decide)

/-! ## Helper lemmas about the assembly timeline -/

/-- Under the invariant, the encoder slice has exactly
`trimEnd - trimStart + 1` frames. -/
theorem framesToCombine_length (st : TimelineState)
    (h1 : st.trimStart ≤ st.trimEnd) (h2 : st.trimEnd < st.flatFrames.length) :
    (framesToCombine st).length = st.trimEnd - st.trimStart + 1 := by
  unfold framesToCombine
  rw [List.length_take, List.length_drop]
  omega

/-- A `slice(s, s + k)` written as the in-bounds reads of indices
`s, …, s + k - 1`. -/
theorem slice_eq_filterMap {α : Type} (l : List α) :
    ∀ (k s : ℕ), s + k ≤ l.length →
    (l.drop s).take k = (List.range k).filterMap (fun j => l[s + j]?) := by
  intro k
  induction k with
  | zero => intro s h; simp
  | succ k ih =>
    intro s h
    rw [List.range_succ, List.filterMap_append, ← ih s (by omega), List.take_succ]
    congr 1
    rw [List.getElem?_drop]
    cases h : l[s + k]? <;> simp [List.filterMap_cons, h]

/-- Under the invariant the guards of `generateCombinedGif` pass and the
slice is handed to the encoder. -/
theorem generateCombinedGif_active (st : TimelineState)
    (h1 : st.trimStart ≤ st.trimEnd) (h2 : st.trimEnd < st.flatFrames.length) :
    generateCombinedGif st = some (framesToCombine st) := by
  unfold generateCombinedGif
  rw [if_neg (by omega : ¬ st.flatFrames.length = 0)]
  rw [if_neg (by omega : ¬ st.trimEnd < st.trimStart)]
  rw [if_neg (by rw [framesToCombine_length st h1 h2]; omega)]

/-- The source's `reduce((acc, f) => acc + f.delay, 0)` is the sum of the
delays. -/
theorem foldl_add_delay (l : List ParsedGifFrame) :
    ∀ init : ℚ,
    l.foldl (fun acc f => acc + f.delay) init = init + (l.map (fun f => f.delay)).sum := by
  induction l with
  | nil => intro init; simp
  | cons f fs ih =>
    intro init
    rw [List.foldl_cons, ih, List.map_cons, List.sum_cons]
    ring

/-- The sum of a `slice(s, s + k)` of a list of rationals, as a sum of
indexed reads. -/
theorem slice_sum_range (ds : List ℚ) :
    ∀ (k s : ℕ), s + k ≤ ds.length →
    ((ds.drop s).take k).sum = ∑ j ∈ Finset.range k, ds.getD (s + j) 0 := by
  intro k
  induction k with
  | zero => intro s h; simp
  | succ k ih =>
    intro s h
    rw [List.take_succ, List.sum_append, ih s (by omega), Finset.sum_range_succ]
    congr 1
    rw [List.getElem?_drop, List.getD_eq_getElem?_getD]
    have hin : s + k < ds.length := by omega
    rw [List.getElem?_eq_getElem hin]
    simp only [Option.toList_some, List.sum_cons, List.sum_nil, Option.getD_some, add_zero]

/-- The sum of a `slice(s, e + 1)` equals the sum of the delays over the
inclusive index interval `[s, e]`. -/
theorem slice_sum_Icc (ds : List ℚ) (s e : ℕ) (h1 : s ≤ e) (h2 : e < ds.length) :
    ((ds.drop s).take (e + 1 - s)).sum = ∑ idx ∈ Finset.Icc s e, ds.getD idx 0 := by
  rw [← Nat.Ico_succ_right, Finset.sum_Ico_eq_sum_range]
  exact slice_sum_range ds (e + 1 - s) s (by omega)

/-! ## C8 — the timeline invariant is preserved -/

/-- C8: every timeline operation preserves the invariant
`0 ≤ trimStart ≤ trimEnd < len(flattened)` on a non-empty flattened index,
and the collapsed `[0, 0]` range on an empty one: a reorder (recomputing
the flattened index and resetting the trim range) establishes it outright,
and each trim handler preserves it for any slider value within the
slider's `max` bound. -/
theorem timeline_operations_preserve_invariant (gifs : List SourceGif) (d o : ℕ)
    (st : TimelineState) (v w : ℕ) (hinv : TrimInv st)
    (hv : v ≤ sliderMax st) (hw : w ≤ sliderMax st) :
    TrimInv (recomputeTimeline (handleDragSort d o gifs))
      ∧ TrimInv (handleStartTrimChange v st)
      ∧ TrimInv (handleEndTrimChange w st) := by
  refine ⟨?_, ?_, ?_⟩
  · unfold TrimInv recomputeTimeline
    constructor
    · intro h
      dsimp only at h ⊢
      rw [h]
      exact ⟨rfl, rfl⟩
    · intro h
      dsimp only at h ⊢
      have hpos : 0 < ((handleDragSort d o gifs).flatMap (fun g => g.frames)).length :=
        Nat.pos_of_ne_zero h
      rw [if_pos hpos]
      omega
  · unfold TrimInv at hinv
    unfold TrimInv handleStartTrimChange
    constructor
    · intro h
      dsimp only at h ⊢
      obtain ⟨hs, he⟩ := hinv.1 h
      omega
    · intro h
      dsimp only at h ⊢
      obtain ⟨hs, he⟩ := hinv.2 h
      omega
  · unfold TrimInv at hinv
    unfold TrimInv handleEndTrimChange
    unfold sliderMax at hw
    constructor
    · intro h
      dsimp only at h ⊢
      obtain ⟨hs, he⟩ := hinv.1 h
      rw [if_neg (by omega)] at hw
      omega
    · intro h
      dsimp only at h ⊢
      obtain ⟨hs, he⟩ := hinv.2 h
      rw [if_pos (by omega)] at hw
      omega

/-- Witness for C8 at a concrete timeline and slider values. -/
theorem timeline_operations_preserve_invariant_witness :
    TrimInv (recomputeTimeline (handleDragSort 0 1 [⟨[⟨0, 100⟩]⟩, ⟨[⟨1, 50⟩]⟩]))
      ∧ TrimInv (handleStartTrimChange 3 sixFrameTimeline)
      ∧ TrimInv (handleEndTrimChange 4 sixFrameTimeline) :=
  timeline_operations_preserve_invariant [⟨[⟨0, 100⟩]⟩, ⟨[⟨1, 50⟩]⟩] 0 1
    sixFrameTimeline 3 4 (by decide) (by decide) (by decide)

/-! ## C9 — reorder resets the trim range; the active range is exact -/

/-- C9: after any drag-reorder of the sources, the recomputed timeline has
`trimStart = 0` and `trimEnd = len - 1` (or `0` on an empty index); and
under the invariant the range handed to encoding is exactly the
`trimEnd - trimStart + 1` flattened frames at indices
`trimStart, …, trimEnd`. -/
theorem reorder_resets_trim_and_active_range_exact (gifs : List SourceGif)
    (d o : ℕ) (st : TimelineState)
    (h1 : st.trimStart ≤ st.trimEnd) (h2 : st.trimEnd < st.flatFrames.length) :
    (recomputeTimeline (handleDragSort d o gifs)).trimStart = 0
      ∧ (recomputeTimeline (handleDragSort d o gifs)).trimEnd
          = (if ((handleDragSort d o gifs).flatMap (fun g => g.frames)).length > 0
             then ((handleDragSort d o gifs).flatMap (fun g => g.frames)).length - 1
             else 0)
      ∧ generateCombinedGif st = some (framesToCombine st)
      ∧ (framesToCombine st).length = st.trimEnd - st.trimStart + 1
      ∧ framesToCombine st
          = (List.range (st.trimEnd - st.trimStart + 1)).filterMap
              (fun j => st.flatFrames[st.trimStart + j]?) := by
  refine ⟨rfl, rfl, generateCombinedGif_active st h1 h2,
    framesToCombine_length st h1 h2, ?_⟩
  unfold framesToCombine
  have he : st.trimEnd + 1 - st.trimStart = st.trimEnd - st.trimStart + 1 := by omega
  rw [he, slice_eq_filterMap st.flatFrames (st.trimEnd - st.trimStart + 1) st.trimStart
    (by omega)]

/-- Witness for C9 at a concrete two-source timeline. -/
theorem reorder_resets_trim_and_active_range_exact_witness :
    (recomputeTimeline (handleDragSort 1 0 [⟨[⟨0, 100⟩, ⟨1, 60⟩]⟩, ⟨[⟨2, 80⟩]⟩])).trimStart = 0
      ∧ (recomputeTimeline (handleDragSort 1 0 [⟨[⟨0, 100⟩, ⟨1, 60⟩]⟩, ⟨[⟨2, 80⟩]⟩])).trimEnd
          = (if ((handleDragSort 1 0 [⟨[⟨0, 100⟩, ⟨1, 60⟩]⟩, ⟨[⟨2, 80⟩]⟩]).flatMap
                (fun g => g.frames)).length > 0
             then ((handleDragSort 1 0 [⟨[⟨0, 100⟩, ⟨1, 60⟩]⟩, ⟨[⟨2, 80⟩]⟩]).flatMap
                (fun g => g.frames)).length - 1
             else 0)
      ∧ generateCombinedGif midTrimTimeline = some (framesToCombine midTrimTimeline)
      ∧ (framesToCombine midTrimTimeline).length
          = midTrimTimeline.trimEnd - midTrimTimeline.trimStart + 1
      ∧ framesToCombine midTrimTimeline
          = (List.range (midTrimTimeline.trimEnd - midTrimTimeline.trimStart + 1)).filterMap
              (fun j => midTrimTimeline.flatFrames[midTrimTimeline.trimStart + j]?) :=
  reorder_resets_trim_and_active_range_exact [⟨[⟨0, 100⟩, ⟨1, 60⟩]⟩, ⟨[⟨2, 80⟩]⟩] 1 0
    midTrimTimeline (by decide) (by decide)

/-! ## C10 — durations are exact delay sums -/

/-- C10: on a non-empty flattened index satisfying the invariant, the
reported total duration is exactly the sum of every member frame's
`delay`, and the selected-range duration is exactly the sum of the delays
at the inclusive index range `[trimStart, trimEnd]` — each divided by 1000
to convert milliseconds to seconds, and never derived from a frame count
times a fixed rate. -/
theorem durations_are_exact_delay_sums (st : TimelineState)
    (hne : st.flatFrames ≠ []) (h1 : st.trimStart ≤ st.trimEnd)
    (h2 : st.trimEnd < st.flatFrames.length) :
    (timelineMetrics st).1 = (st.flatFrames.map (fun f => f.delay)).sum / 1000
      ∧ (timelineMetrics st).2.2.2
          = (∑ idx ∈ Finset.Icc st.trimStart st.trimEnd,
              (st.flatFrames.map (fun f => f.delay)).getD idx 0) / 1000 := by
  have hlen0 : st.flatFrames.length ≠ 0 := fun hh => hne (List.length_eq_zero.mp hh)
  unfold timelineMetrics
  rw [if_neg hlen0]
  dsimp only
  constructor
  · rw [foldl_add_delay, zero_add]
  · rw [foldl_add_delay, zero_add]
    have hmap : ((st.flatFrames.drop st.trimStart).take (st.trimEnd + 1 - st.trimStart)).map
          (fun f => f.delay)
        = ((st.flatFrames.map (fun f => f.delay)).drop st.trimStart).take
            (st.trimEnd + 1 - st.trimStart) := by
      rw [List.map_take, List.map_drop]
    rw [hmap, slice_sum_Icc _ _ _ h1 (by simpa using h2)]

/-- Witness for C10 on a timeline with non-uniform delays
(100 ms, 250 ms, 40 ms; selected range `[1, 2]`). -/
theorem durations_are_exact_delay_sums_witness :
    (timelineMetrics nonUniformTimeline).1
        = (nonUniformTimeline.flatFrames.map (fun f => f.delay)).sum / 1000
      ∧ (timelineMetrics nonUniformTimeline).2.2.2
          = (∑ idx ∈ Finset.Icc nonUniformTimeline.trimStart nonUniformTimeline.trimEnd,
              (nonUniformTimeline.flatFrames.map (fun f => f.delay)).getD idx 0) / 1000 :=
  durations_are_exact_delay_sums nonUniformTimeline (by decide) (by decide) (by decide)
